import Mathlib

/-!
Verification of the Knative KPA scaler decision core
(`pkg/reconciler/autoscaling/kpa/scaler.go`).

Shallow embedding: durations and instants are `Int` nanoseconds (Go's
`time.Duration` is an int64 nanosecond count), replica counts are `Int`
(the Go code compares and selects `int32` values but performs no
arithmetic that could overflow on the paths modelled here), side effects
(`enqueueCB` calls, `probeManager.Offer` calls, synchronous probe
requests, PATCH requests) are returned as explicit lists of call
records, and outcomes of external calls (the HTTP probe, the informer
fetch, the dynamic-client patch) are passed in as oracle arguments.
-/

namespace KpaScaler

/-- One Go `time.Second` in nanoseconds. -/
def second : Int := 1000000000

/-- `scaleUnknown = -1` (scaler.go, const block). -/
def scaleUnknown : Int := -1

/-- `probePeriod = 1 * time.Second` (scaler.go, const block). -/
def probePeriod : Int := 1 * second

/-- `probeTimeout = 45 * time.Second` (scaler.go, const block). -/
def probeTimeout : Int := 45 * second

/-- `reenqeuePeriod = 1 * time.Second` (scaler.go, const block; the
source spells the name without the second `u`). -/
def reenqeuePeriod : Int := 1 * second

/-- `activationTimeoutBuffer = 10 * time.Second` (scaler.go, const block). -/
def activationTimeoutBuffer : Int := 10 * second

/-- The PA's `Status.Active` condition: True / False / Unknown,
i.e. Active / Inactive / Activating. -/
inductive ActiveStatus where
  | active
  | inactive
  | activating
deriving DecidableEq, Repr

/-- `pa.Spec.ProtocolType` — selects the probe port. -/
inductive ProtocolType where
  | http1
  | h2c
deriving DecidableEq, Repr

/-- The slice of `PodAutoscaler.Status` the scaler reads: the SKS
service name and the Active condition with the instant of its last
transition (from which the duration-in-state predicates derive). -/
structure PAStatus where
  serviceName : String
  active : ActiveStatus
  lastTransitionTime : Int
deriving DecidableEq, Repr

/-- The slice of `PodAutoscaler` the scaler reads. `nspace` stands for
the object's metadata namespace; `minScale`/`maxScale` back
`ScaleBounds`, and `stableWindowOverride` backs the per-PA annotation
read by `aresources.StableWindow`. -/
structure PodAutoscaler where
  nspace : String
  protocolType : ProtocolType
  minScale : Int
  maxScale : Int
  stableWindowOverride : Option Int
  status : PAStatus
deriving DecidableEq, Repr

/-- Modelled from the spec: `IsActivating()` — the Active condition is
Unknown. (The predicate lives in `pkg/apis/autoscaling/v1alpha1`,
outside the provided sources.) -/
def PAStatus.isActivating (s : PAStatus) : Bool :=
  s.active = ActiveStatus.activating

/-- Modelled from the spec: `IsReady()` — used by the scaler as
"Active=True". (Outside the provided sources.) -/
def PAStatus.isReady (s : PAStatus) : Bool :=
  s.active = ActiveStatus.active

/-- Modelled from the spec: `ActiveFor(now)` — duration since the PA
became Active. (Outside the provided sources.) -/
def PAStatus.activeFor (s : PAStatus) (now : Int) : Int :=
  now - s.lastTransitionTime

/-- Modelled from the spec: `CanFailActivation(now, timeout)` — true
iff the PA has been Activating for at least `timeout`. (Outside the
provided sources.) -/
def PAStatus.canFailActivation (s : PAStatus) (now timeout : Int) : Bool :=
  s.active = ActiveStatus.activating ∧ now - s.lastTransitionTime ≥ timeout

/-- Modelled from the spec: `CanScaleToZero(now, grace)` — true iff the
PA has been Inactive for at least `grace`. (Outside the provided
sources.) -/
def PAStatus.canScaleToZero (s : PAStatus) (now grace : Int) : Bool :=
  s.active = ActiveStatus.inactive ∧ now - s.lastTransitionTime ≥ grace

/-- Modelled from the spec: `pa.ScaleBounds()` returns the configured
`(min, max)` bounds, `max = 0` meaning unbounded. (Outside the provided
sources.) -/
def PodAutoscaler.scaleBounds (pa : PodAutoscaler) : Int × Int :=
  (pa.minScale, pa.maxScale)

/-- `sks.Spec.Mode` ∈ {Serve, Proxy}. -/
inductive SKSMode where
  | serve
  | proxy
deriving DecidableEq, Repr

structure SKSSpec where
  mode : SKSMode
deriving DecidableEq, Repr

/-- Modelled from the spec: `sks.Status.ProxyFor()` — the duration the
SKS has been in Proxy mode, 0 if not in Proxy. (Outside the provided
sources; stored here as the value that call returns.) -/
structure SKSStatus where
  proxyFor : Int
deriving DecidableEq, Repr

structure ServerlessService where
  spec : SKSSpec
  status : SKSStatus
deriving DecidableEq, Repr

/-- `config.Autoscaler` fields read by the scaler. -/
structure AutoscalerConfig where
  enableScaleToZero : Bool
  stableWindow : Int
  scaleToZeroGracePeriod : Int
deriving DecidableEq, Repr

/-- `config.Deployment` fields read by the scaler. -/
structure DeploymentConfig where
  progressDeadline : Int
deriving DecidableEq, Repr

/-- The config bundle carried on the context (`config.FromContext`). -/
structure Config where
  autoscaler : AutoscalerConfig
  deployment : DeploymentConfig
deriving DecidableEq, Repr

/-- Modelled from the spec: `aresources.StableWindow(pa, cfgAS)` — the
per-PA annotation override, or the global default. (Outside the
provided sources.) -/
def stableWindow (pa : PodAutoscaler) (cfgAS : AutoscalerConfig) : Int :=
  pa.stableWindowOverride.getD cfgAS.stableWindow

/-- `PodScalable` duck type: `Spec.Replicas` is nullable. -/
structure PodScalable where
  name : String
  replicas : Option Int
deriving DecidableEq, Repr

/-- Modelled from the spec: `networking.ServicePort(protocolType)` —
the protocol→port mapping owned by the networking layer. (Outside the
provided sources.) -/
def servicePort : ProtocolType → Int
  | ProtocolType.http1 => 80
  | ProtocolType.h2c => 81

/-- Modelled from the spec: `pkgnet.GetServiceHostname(name, ns)` — the
`{service}.{namespace}` hostname of a service. (Outside the provided
sources.) -/
def getServiceHostname (name nspace : String) : String :=
  name ++ "." ++ nspace

/-- `paToProbeTarget` (scaler.go): the probing endpoint
`http://hostname:port/healthz`. -/
def paToProbeTarget (pa : PodAutoscaler) : String :=
  let svc := getServiceHostname pa.status.serviceName pa.nspace
  let port := servicePort pa.protocolType
  "http://" ++ svc ++ ":" ++ toString port ++ "/healthz"

/-- Outcome of one `prober.Do` round-trip: did the probe confirm the
activator, and the (logged-only) error value. -/
structure ProbeOutcome where
  present : Bool
  err : Option String
deriving DecidableEq, Repr

/-- Record of one synchronous probe HTTP request. -/
structure ProbeCall where
  target : String
deriving DecidableEq, Repr

/-- Record of one `probeManager.Offer` call. -/
structure OfferCall where
  target : String
  arg : PodAutoscaler
  period : Int
  timeout : Int
deriving DecidableEq, Repr

/-- Record of one PATCH of the target workload's replica count. -/
structure PatchCall where
  name : String
  replicas : Int
deriving DecidableEq, Repr

/-- `activatorProbe` (scaler.go): no service name — no probe; otherwise
one `prober.Do` round-trip whose outcome is the `proberDo` oracle.
Returns the `(present, err)` pair together with the network requests
issued. -/
def activatorProbe (pa : PodAutoscaler) (proberDo : ProbeOutcome) :
    ProbeOutcome × List ProbeCall :=
  if pa.status.serviceName = "" then
    ({ present := false, err := none }, [])
  else
    (proberDo, [{ target := paToProbeTarget pa }])

/-- The async-prober completion callback installed by `newScaler`
(scaler.go lines 104–108): re-enqueue the PA in any case after
`reenqeuePeriod`, regardless of success or error. Returns the
`enqueueCB` calls it makes. -/
def proberCallback (arg : PodAutoscaler) (_success : Bool)
    (_err : Option String) : List (PodAutoscaler × Int) :=
  [(arg, reenqeuePeriod)]

-- pre: 0 <= min <= max && 0 <= x  (scaler.go comment)
def applyBounds (min max x : Int) : Int :=
  if x < min then
    min
  else if max ≠ 0 ∧ x > max then
    max
  else
    x

/-- The observable outcome of one `handleScaleToZero` invocation: the
returned `(int32, bool)` pair plus the side effects performed
(`enqueueCB` calls, `probeManager.Offer` calls, synchronous probe
requests). -/
structure HSTZResult where
  scale : Int
  shouldApply : Bool
  enqueues : List (PodAutoscaler × Int)
  offers : List OfferCall
  probeCalls : List ProbeCall
deriving DecidableEq, Repr

/-- `handleScaleToZero` (scaler.go lines 143–240). `cfgs` is the config
pulled from the context, `now` is `time.Now()`, and `proberDo` is the
oracle for the one `prober.Do` round-trip `activatorProbe` may issue.
The Go `switch` dispatches on `IsActivating()` (Active=Unknown), then
`IsReady()` (Active=True), with Active=False as the default case. -/
def handleScaleToZero (cfgs : Config) (now : Int) (proberDo : ProbeOutcome)
    (pa : PodAutoscaler) (sks : ServerlessService)
    (desiredScale : Int) : HSTZResult :=
  if desiredScale ≠ 0 then
    ⟨desiredScale, true, [], [], []⟩
  else
    let cfgAS := cfgs.autoscaler
    if !cfgAS.enableScaleToZero then
      ⟨1, true, [], [], []⟩
    else
      let cfgD := cfgs.deployment
      let activationTimeout := cfgD.progressDeadline + activationTimeoutBuffer
      if pa.status.isActivating then
        -- Active=Unknown
        if pa.status.canFailActivation now activationTimeout then
          ⟨desiredScale, true, [], [], []⟩
        else
          ⟨scaleUnknown, false, [(pa, activationTimeout)], [], []⟩
      else if pa.status.isReady then
        -- Active=True
        let sw := stableWindow pa cfgAS
        let af := pa.status.activeFor now
        if af ≥ sw then
          if sks.spec.mode = SKSMode.proxy then
            ⟨desiredScale, false, [(pa, 3 * second)], [], []⟩
          else
            ⟨desiredScale, false, [], [], []⟩
        else
          ⟨1, true, [(pa, sw - af)], [], []⟩
      else
        -- Active=False: probe synchronously (err is only logged)
        let probed := activatorProbe pa proberDo
        let r := probed.1
        let calls := probed.2
        if r.present then
          if pa.status.canScaleToZero now cfgAS.scaleToZeroGracePeriod then
            ⟨desiredScale, true, [], [], calls⟩
          else
            let pf := sks.status.proxyFor
            let t := cfgAS.scaleToZeroGracePeriod - pf
            if t ≤ 0 then
              ⟨desiredScale, true, [], [], calls⟩
            else
              ⟨desiredScale, false, [(pa, t)], [], calls⟩
        else
          ⟨desiredScale, false, [],
            [⟨paToProbeTarget pa, pa, probePeriod, probeTimeout⟩], calls⟩

/-- `applyScale` (scaler.go lines 242–270). `scaleArgs` is the oracle
for `resources.ScaleResourceArguments` (its error aborts before the
PATCH); `duck.CreatePatch` and `MarshalJSON` between two copies
differing only in `Spec.Replicas` cannot fail and are not given failure
oracles. `patchResult` is the dynamic client's response: the PATCH is
issued either way, and an error is wrapped naming the target. -/
def applyScale (_pa : PodAutoscaler) (desiredScale : Int) (ps : PodScalable)
    (scaleArgs : Except String Unit) (patchResult : Option String) :
    Option String × List PatchCall :=
  match scaleArgs with
  | Except.error e => (some e, [])
  | Except.ok _ =>
    match patchResult with
    | some e =>
      (some ("failed to apply scale " ++ toString desiredScale ++
        " to scale target " ++ ps.name ++ ": " ++ e), [⟨ps.name, desiredScale⟩])
    | none => (none, [⟨ps.name, desiredScale⟩])

/-- The observable outcome of one `scale` invocation: returned scale and
error, plus all side effects. -/
structure ScaleResult where
  scale : Int
  err : Option String
  enqueues : List (PodAutoscaler × Int)
  offers : List OfferCall
  probeCalls : List ProbeCall
  patches : List PatchCall
deriving DecidableEq, Repr

/-- `scale` (scaler.go lines 272–307). `getPS` is the oracle for
`resources.GetScaleResource` (the informer-cache fetch). The Go code
only reassigns `desiredScale` when the clamped value differs, which is
the same as always using the clamped value. -/
def scale (cfgs : Config) (now : Int) (proberDo : ProbeOutcome)
    (pa : PodAutoscaler) (sks : ServerlessService)
    (getPS : Except String PodScalable) (scaleArgs : Except String Unit)
    (patchResult : Option String) (desiredScale : Int) : ScaleResult :=
  if desiredScale < 0 ∧ ¬pa.status.isActivating then
    ⟨desiredScale, none, [], [], [], []⟩
  else
    let bounds := pa.scaleBounds
    let clamped := applyBounds bounds.1 bounds.2 desiredScale
    let r := handleScaleToZero cfgs now proberDo pa sks clamped
    if ¬r.shouldApply then
      ⟨r.scale, none, r.enqueues, r.offers, r.probeCalls, []⟩
    else
      match getPS with
      | Except.error e =>
        ⟨r.scale, some ("failed to get scale target: " ++ e),
          r.enqueues, r.offers, r.probeCalls, []⟩
      | Except.ok ps =>
        let currentScale := ps.replicas.getD 1
        if r.scale = currentScale then
          ⟨r.scale, none, r.enqueues, r.offers, r.probeCalls, []⟩
        else
          let applied := applyScale pa r.scale ps scaleArgs patchResult
          ⟨r.scale, applied.1, r.enqueues, r.offers, r.probeCalls, applied.2⟩

/-! Concrete inputs used by witnesses and counterexamples. -/

/-- Example config: scale-to-zero enabled, stable window 60s, grace
period 30s, progress deadline 600s. -/
def cfgsEx : Config :=
  ⟨⟨true, 60 * second, 30 * second⟩, ⟨600 * second⟩⟩

/-- Example config with scale-to-zero disabled. -/
def cfgsDisabledEx : Config :=
  ⟨⟨false, 60 * second, 30 * second⟩, ⟨600 * second⟩⟩

/-- Example PA whose Active condition is True since instant 0. -/
def paActiveEx : PodAutoscaler :=
  ⟨"default", ProtocolType.http1, 0, 10, none, ⟨"svc", ActiveStatus.active, 0⟩⟩

/-- Example PA whose Active condition is False since instant 0. -/
def paInactiveEx : PodAutoscaler :=
  ⟨"default", ProtocolType.http1, 0, 10, none, ⟨"svc", ActiveStatus.inactive, 0⟩⟩

/-- Example PA whose Active condition is Unknown since instant 0. -/
def paActivatingEx : PodAutoscaler :=
  ⟨"default", ProtocolType.http1, 0, 10, none, ⟨"svc", ActiveStatus.activating, 0⟩⟩

/-- Example PA with an empty `status.serviceName`. -/
def paNoServiceEx : PodAutoscaler :=
  ⟨"default", ProtocolType.http1, 0, 10, none, ⟨"", ActiveStatus.inactive, 0⟩⟩

/-- Example SKS in Serve mode. -/
def sksServeEx : ServerlessService :=
  ⟨⟨SKSMode.serve⟩, ⟨0⟩⟩

/-- Example SKS in Proxy mode for 5s. -/
def sksProxyEx : ServerlessService :=
  ⟨⟨SKSMode.proxy⟩, ⟨5 * second⟩⟩

/-! Claim theorems. -/

/-- Claim C8: for `0 ≤ min`, `min ≤ max` when `max ≠ 0`, and `0 ≤ x`,
`applyBounds min max x` is `min` when `x < min`, is `max` when
`max ≠ 0` and `x > max`, and is `x` otherwise; the result lies in
`[min, max]` (upper bound dropped when `max = 0`) and `applyBounds` is
idempotent. (Stated over `Int`, which subsumes all `int32` inputs since
`applyBounds` only compares and selects its arguments.) -/
theorem applyBounds_clamp_spec (min max x : Int)
    (hmin : 0 ≤ min) (hminmax : max ≠ 0 → min ≤ max) (hx : 0 ≤ x) :
    (x < min → applyBounds min max x = min) ∧
    (max ≠ 0 → x > max → applyBounds min max x = max) ∧
    (¬x < min → ¬(max ≠ 0 ∧ x > max) → applyBounds min max x = x) ∧
    min ≤ applyBounds min max x ∧
    (max ≠ 0 → applyBounds min max x ≤ max) ∧
    applyBounds min max (applyBounds min max x) = applyBounds min max x := by
  unfold applyBounds
  split_ifs <;> simp_all <;> omega

/-- Witness for C8 at `min = 1`, `max = 10`, `x = 15`. -/
theorem applyBounds_clamp_spec_witness :
    applyBounds 1 10 15 = 10 ∧
    1 ≤ applyBounds 1 10 15 ∧
    applyBounds 1 10 (applyBounds 1 10 15) = applyBounds 1 10 15 := by
  have h := applyBounds_clamp_spec 1 10 15 (by decide)
    (fun _ => by decide) (by decide)
  exact ⟨h.2.1 (by decide) (by decide), h.2.2.2.1, h.2.2.2.2.2⟩

/-- Claim C9: when `pa.status.serviceName` is empty, `activatorProbe`
returns `(false, nil)` and issues no network request, whatever the
prober oracle would have answered. -/
theorem activatorProbe_no_service (pa : PodAutoscaler)
    (proberDo : ProbeOutcome) (h : pa.status.serviceName = "") :
    activatorProbe pa proberDo = (⟨false, none⟩, []) := by
  unfold activatorProbe
  simp [h]

/-- Witness for C9 at a PA with empty service name and a prober oracle
that would have answered `(true, err)`. -/
theorem activatorProbe_no_service_witness :
    activatorProbe paNoServiceEx ⟨true, some "boom"⟩ = (⟨false, none⟩, []) :=
  activatorProbe_no_service paNoServiceEx ⟨true, some "boom"⟩ rfl

/-- Claim C6: with `enableScaleToZero = false` the returned effective
scale is never 0; in particular with `desiredScale = 0` the result is
`(1, true)` (and no side effects are performed). -/
theorem handleScaleToZero_zero_gated (cfgs : Config) (now : Int)
    (proberDo : ProbeOutcome) (pa : PodAutoscaler) (sks : ServerlessService)
    (desiredScale : Int)
    (h : cfgs.autoscaler.enableScaleToZero = false) :
    (handleScaleToZero cfgs now proberDo pa sks desiredScale).scale ≠ 0 ∧
    (desiredScale = 0 →
      handleScaleToZero cfgs now proberDo pa sks desiredScale =
        ⟨1, true, [], [], []⟩) := by
  unfold handleScaleToZero
  by_cases hd : desiredScale = 0
  · subst hd
    simp [h]
  · simp [hd]

/-- Witness for C6 at the disabled config, `desiredScale = 0`. -/
theorem handleScaleToZero_zero_gated_witness :
    (handleScaleToZero cfgsDisabledEx 0 ⟨true, none⟩ paInactiveEx sksProxyEx 0).scale ≠ 0 ∧
    handleScaleToZero cfgsDisabledEx 0 ⟨true, none⟩ paInactiveEx sksProxyEx 0 =
      ⟨1, true, [], [], []⟩ := by
  have h := handleScaleToZero_zero_gated cfgsDisabledEx 0 ⟨true, none⟩
    paInactiveEx sksProxyEx 0 rfl
  exact ⟨h.1, h.2 rfl⟩

/-- Claim C4: desiredScale 0, scale-to-zero enabled, PA Activating
(Active=Unknown), `activationTimeout = progressDeadline +
activationTimeoutBuffer`: if `CanFailActivation(now, activationTimeout)`
the result is `(0, true)` with no side effects; otherwise `enqueueCB(pa,
activationTimeout)` is called and the result is `(-1, false)`. -/
theorem handleScaleToZero_activating (cfgs : Config) (now : Int)
    (proberDo : ProbeOutcome) (pa : PodAutoscaler) (sks : ServerlessService)
    (hen : cfgs.autoscaler.enableScaleToZero = true)
    (hact : pa.status.active = ActiveStatus.activating) :
    (pa.status.canFailActivation now
        (cfgs.deployment.progressDeadline + activationTimeoutBuffer) = true →
      handleScaleToZero cfgs now proberDo pa sks 0 = ⟨0, true, [], [], []⟩) ∧
    (pa.status.canFailActivation now
        (cfgs.deployment.progressDeadline + activationTimeoutBuffer) = false →
      handleScaleToZero cfgs now proberDo pa sks 0 =
        ⟨scaleUnknown, false,
          [(pa, cfgs.deployment.progressDeadline + activationTimeoutBuffer)],
          [], []⟩) := by
  unfold handleScaleToZero
  simp [hen, PAStatus.isActivating, hact]

/-- Witness for C4: activating since 0, now = 620s ≥ 610s, so
activation can fail and the result is `(0, true)`. -/
theorem handleScaleToZero_activating_witness :
    handleScaleToZero cfgsEx (620 * second) ⟨false, none⟩ paActivatingEx
      sksServeEx 0 = ⟨0, true, [], [], []⟩ := by
  have h := handleScaleToZero_activating cfgsEx (620 * second) ⟨false, none⟩
    paActivatingEx sksServeEx rfl rfl
  exact h.1 (by decide)

/-- Claim C3: desiredScale 0, scale-to-zero enabled, PA Active
(Active=True): with `sw = stableWindow(pa, cfg)` and `af =
ActiveFor(now)`, if `af ≥ sw` the result is `(0, false)` and
`enqueueCB(pa, 3s)` is called exactly when the SKS is in Proxy mode; if
`af < sw` then `enqueueCB(pa, sw − af)` is called and the result is
`(1, true)`. -/
theorem handleScaleToZero_active (cfgs : Config) (now : Int)
    (proberDo : ProbeOutcome) (pa : PodAutoscaler) (sks : ServerlessService)
    (hen : cfgs.autoscaler.enableScaleToZero = true)
    (hact : pa.status.active = ActiveStatus.active) :
    (pa.status.activeFor now ≥ stableWindow pa cfgs.autoscaler →
      handleScaleToZero cfgs now proberDo pa sks 0 =
        ⟨0, false,
          if sks.spec.mode = SKSMode.proxy then [(pa, 3 * second)] else [],
          [], []⟩) ∧
    (pa.status.activeFor now < stableWindow pa cfgs.autoscaler →
      handleScaleToZero cfgs now proberDo pa sks 0 =
        ⟨1, true,
          [(pa, stableWindow pa cfgs.autoscaler - pa.status.activeFor now)],
          [], []⟩) := by
  unfold handleScaleToZero
  simp [hen, PAStatus.isActivating, PAStatus.isReady, hact]
  constructor
  · intro hge
    simp [hge]
    split_ifs <;> simp
  · intro hlt
    simp [not_le.mpr hlt]

/-- Witness for C3: active for 120s ≥ 60s stable window, SKS in Proxy
mode: result `(0, false)` with a 3s re-enqueue. -/
theorem handleScaleToZero_active_witness :
    handleScaleToZero cfgsEx (120 * second) ⟨false, none⟩ paActiveEx
      sksProxyEx 0 =
      ⟨0, false, [(paActiveEx, 3 * second)], [], []⟩ := by
  have h := handleScaleToZero_active cfgsEx (120 * second) ⟨false, none⟩
    paActiveEx sksProxyEx rfl rfl
  have h2 := h.1 (by decide)
  simpa using h2

/-- Claim C2: desiredScale 0, scale-to-zero enabled, PA Inactive
(Active=False), synchronous probe present: if `CanScaleToZero(now,
grace)` the result is `(0, true)`; otherwise with `to = grace −
sks.status.proxyFor`, if `to ≤ 0` the result is `(0, true)`, and if
`to > 0` then `enqueueCB(pa, to)` is called and the result is
`(0, false)`. -/
theorem handleScaleToZero_inactive_present (cfgs : Config) (now : Int)
    (proberDo : ProbeOutcome) (pa : PodAutoscaler) (sks : ServerlessService)
    (hen : cfgs.autoscaler.enableScaleToZero = true)
    (hina : pa.status.active = ActiveStatus.inactive)
    (hpr : (activatorProbe pa proberDo).1.present = true) :
    (pa.status.canScaleToZero now cfgs.autoscaler.scaleToZeroGracePeriod = true →
      handleScaleToZero cfgs now proberDo pa sks 0 =
        ⟨0, true, [], [], (activatorProbe pa proberDo).2⟩) ∧
    (pa.status.canScaleToZero now cfgs.autoscaler.scaleToZeroGracePeriod = false →
      (cfgs.autoscaler.scaleToZeroGracePeriod - sks.status.proxyFor ≤ 0 →
        handleScaleToZero cfgs now proberDo pa sks 0 =
          ⟨0, true, [], [], (activatorProbe pa proberDo).2⟩) ∧
      (cfgs.autoscaler.scaleToZeroGracePeriod - sks.status.proxyFor > 0 →
        handleScaleToZero cfgs now proberDo pa sks 0 =
          ⟨0, false,
            [(pa, cfgs.autoscaler.scaleToZeroGracePeriod - sks.status.proxyFor)],
            [], (activatorProbe pa proberDo).2⟩)) := by
  unfold handleScaleToZero
  refine ⟨?_, ?_⟩
  · intro hcs
    simp [hen, PAStatus.isActivating, PAStatus.isReady, hina, hpr, hcs]
  · intro hcs
    refine ⟨?_, ?_⟩
    · intro hle
      simp [hen, PAStatus.isActivating, PAStatus.isReady, hina, hpr, hcs, hle]
    · intro hgt
      simp [hen, PAStatus.isActivating, PAStatus.isReady, hina, hpr, hcs,
        not_le.mpr hgt]

/-- Witness for C2: inactive for 10s < 30s grace, SKS proxying for 5s,
`to = 25s > 0`: result `(0, false)` with a 25s re-enqueue. -/
theorem handleScaleToZero_inactive_present_witness :
    handleScaleToZero cfgsEx (10 * second) ⟨true, none⟩ paInactiveEx
      sksProxyEx 0 =
      ⟨0, false, [(paInactiveEx, 25 * second)], [],
        [⟨paToProbeTarget paInactiveEx⟩]⟩ := by
  have h := handleScaleToZero_inactive_present cfgsEx (10 * second)
    ⟨true, none⟩ paInactiveEx sksProxyEx rfl rfl (by decide)
  have h2 := (h.2 (by decide)).2 (by decide)
  simpa using h2

/-- Claim C5: desiredScale 0, scale-to-zero enabled, PA Inactive, probe
not present (whatever the probe's error value): `probeManager.Offer` is
called for the PA's probe target with period 1s and timeout 45s, the
result is `(0, false)`, and no error channel exists in the return type,
so the probe failure is never surfaced as an error. -/
theorem handleScaleToZero_inactive_absent (cfgs : Config) (now : Int)
    (proberDo : ProbeOutcome) (pa : PodAutoscaler) (sks : ServerlessService)
    (hen : cfgs.autoscaler.enableScaleToZero = true)
    (hina : pa.status.active = ActiveStatus.inactive)
    (hpr : (activatorProbe pa proberDo).1.present = false) :
    handleScaleToZero cfgs now proberDo pa sks 0 =
      ⟨0, false, [],
        [⟨paToProbeTarget pa, pa, 1 * second, 45 * second⟩],
        (activatorProbe pa proberDo).2⟩ := by
  unfold handleScaleToZero
  simp [hen, PAStatus.isActivating, PAStatus.isReady, hina, hpr]
  constructor
  · rfl
  · rfl

/-- Witness for C5: probe answers `(false, some err)`: the Offer call is
made and the result is `(0, false)`. -/
theorem handleScaleToZero_inactive_absent_witness :
    handleScaleToZero cfgsEx (10 * second) ⟨false, some "connection refused"⟩
      paInactiveEx sksServeEx 0 =
      ⟨0, false, [],
        [⟨paToProbeTarget paInactiveEx, paInactiveEx, 1 * second, 45 * second⟩],
        [⟨paToProbeTarget paInactiveEx⟩]⟩ := by
  have h := handleScaleToZero_inactive_absent cfgsEx (10 * second)
    ⟨false, some "connection refused"⟩ paInactiveEx sksServeEx rfl rfl
    (by decide)
  simpa using h

/-- Counterexample to claim C1 as stated: with scale-to-zero enabled,
`desiredScale = 0`, PA Active for 120s ≥ the 60s stable window and the
SKS in Serve mode, `handleScaleToZero` returns shouldApply = false yet
calls neither `enqueueCB` nor `probeManager.Offer` (the code relies on
the SKS mode-change reconciliation to re-trigger the PA there). -/
theorem handleScaleToZero_reenqueue_counterexample :
    cfgsEx.autoscaler.enableScaleToZero = true ∧
    (handleScaleToZero cfgsEx (120 * second) ⟨true, none⟩ paActiveEx
      sksServeEx 0).shouldApply = false ∧
    (handleScaleToZero cfgsEx (120 * second) ⟨true, none⟩ paActiveEx
      sksServeEx 0).enqueues = [] ∧
    (handleScaleToZero cfgsEx (120 * second) ⟨true, none⟩ paActiveEx
      sksServeEx 0).offers = [] :=
  ⟨rfl, rfl, rfl, rfl⟩

/-- Amended claim C1: every invocation of `handleScaleToZero` with
`desiredScale = 0` and scale-to-zero enabled that returns shouldApply =
false either calls `enqueueCB` with some delay, or calls
`probeManager.Offer` for the PA's probe target (whose completion
callback always re-enqueues the PA after `reenqeuePeriod`, regardless
of outcome), except in the Active branch with activeFor ≥ stableWindow
and the SKS not in Proxy mode, where it performs neither. -/
theorem handleScaleToZero_reenqueue_complete (cfgs : Config) (now : Int)
    (proberDo : ProbeOutcome) (pa : PodAutoscaler) (sks : ServerlessService)
    (hen : cfgs.autoscaler.enableScaleToZero = true)
    (hfa : (handleScaleToZero cfgs now proberDo pa sks 0).shouldApply = false) :
    ((handleScaleToZero cfgs now proberDo pa sks 0).enqueues ≠ [] ∨
     (∃ o ∈ (handleScaleToZero cfgs now proberDo pa sks 0).offers,
        o.target = paToProbeTarget pa) ∨
     (pa.status.active = ActiveStatus.active ∧
      stableWindow pa cfgs.autoscaler ≤ pa.status.activeFor now ∧
      sks.spec.mode ≠ SKSMode.proxy)) ∧
    (∀ success err, proberCallback pa success err = [(pa, reenqeuePeriod)]) := by
  refine ⟨?_, fun _ _ => rfl⟩
  unfold handleScaleToZero at hfa ⊢
  split_ifs at hfa ⊢ <;>
    simp_all [PAStatus.isActivating, PAStatus.isReady] <;>
    (split_ifs at hfa ⊢ <;> simp_all)

/-- Witness for the amended C1 at the counterexample input: the
exceptional disjunct is the one that holds. -/
theorem handleScaleToZero_reenqueue_complete_witness :
    (handleScaleToZero cfgsEx (120 * second) ⟨true, none⟩ paActiveEx
        sksServeEx 0).enqueues ≠ [] ∨
    (∃ o ∈ (handleScaleToZero cfgsEx (120 * second) ⟨true, none⟩ paActiveEx
        sksServeEx 0).offers, o.target = paToProbeTarget paActiveEx) ∨
    (paActiveEx.status.active = ActiveStatus.active ∧
     stableWindow paActiveEx cfgsEx.autoscaler ≤
       paActiveEx.status.activeFor (120 * second) ∧
     sksServeEx.spec.mode ≠ SKSMode.proxy) :=
  (handleScaleToZero_reenqueue_complete cfgsEx (120 * second) ⟨true, none⟩
    paActiveEx sksServeEx rfl (by decide)).1

/-- Claim C7: a PATCH is issued only when `handleScaleToZero` (on the
clamped input) said shouldApply and its decided scale differs from
`currentScale = ps.spec.replicas ?? 1`; in every other case `scale`
returns the decided value and the target workload is untouched. The
early return (`desiredScale < 0` and PA not Activating) is its own
no-patch case with decided value `desiredScale`. -/
theorem scale_patch_gated (cfgs : Config) (now : Int) (proberDo : ProbeOutcome)
    (pa : PodAutoscaler) (sks : ServerlessService)
    (getPS : Except String PodScalable) (scaleArgs : Except String Unit)
    (patchResult : Option String) (desiredScale : Int) :
    (desiredScale < 0 ∧ pa.status.isActivating = false →
      scale cfgs now proberDo pa sks getPS scaleArgs patchResult desiredScale =
        ⟨desiredScale, none, [], [], [], []⟩) ∧
    (¬(desiredScale < 0 ∧ pa.status.isActivating = false) →
      ((scale cfgs now proberDo pa sks getPS scaleArgs patchResult
          desiredScale).patches ≠ [] →
        (handleScaleToZero cfgs now proberDo pa sks
          (applyBounds pa.minScale pa.maxScale desiredScale)).shouldApply = true ∧
        ∃ ps, getPS = Except.ok ps ∧
          (handleScaleToZero cfgs now proberDo pa sks
            (applyBounds pa.minScale pa.maxScale desiredScale)).scale ≠
            ps.replicas.getD 1 ∧
          (scale cfgs now proberDo pa sks getPS scaleArgs patchResult
            desiredScale).patches =
            [⟨ps.name, (handleScaleToZero cfgs now proberDo pa sks
              (applyBounds pa.minScale pa.maxScale desiredScale)).scale⟩]) ∧
      ((handleScaleToZero cfgs now proberDo pa sks
          (applyBounds pa.minScale pa.maxScale desiredScale)).shouldApply = false →
        (scale cfgs now proberDo pa sks getPS scaleArgs patchResult
          desiredScale).patches = [] ∧
        (scale cfgs now proberDo pa sks getPS scaleArgs patchResult
          desiredScale).scale =
          (handleScaleToZero cfgs now proberDo pa sks
            (applyBounds pa.minScale pa.maxScale desiredScale)).scale) ∧
      (∀ ps, getPS = Except.ok ps →
        (handleScaleToZero cfgs now proberDo pa sks
          (applyBounds pa.minScale pa.maxScale desiredScale)).scale =
          ps.replicas.getD 1 →
        (scale cfgs now proberDo pa sks getPS scaleArgs patchResult
          desiredScale).patches = [] ∧
        (scale cfgs now proberDo pa sks getPS scaleArgs patchResult
          desiredScale).scale =
          (handleScaleToZero cfgs now proberDo pa sks
            (applyBounds pa.minScale pa.maxScale desiredScale)).scale)) := by
  constructor
  · rintro ⟨hneg, hact⟩
    unfold scale
    simp [hneg, hact]
  · intro hnot
    unfold scale
    simp only [PodAutoscaler.scaleBounds]
    rw [if_neg (by simpa [and_comm, Bool.not_eq_true] using hnot)]
    refine ⟨?_, ?_, ?_⟩
    · intro hne
      by_cases hap : (handleScaleToZero cfgs now proberDo pa sks
          (applyBounds pa.minScale pa.maxScale desiredScale)).shouldApply
      · refine ⟨hap, ?_⟩
        cases getPS with
        | error e => simp [hap] at hne
        | ok ps =>
          refine ⟨ps, rfl, ?_⟩
          by_cases heq : (handleScaleToZero cfgs now proberDo pa sks
              (applyBounds pa.minScale pa.maxScale desiredScale)).scale =
              ps.replicas.getD 1
          · simp [hap, heq] at hne
          · refine ⟨heq, ?_⟩
            simp only [hap, not_true_eq_false, if_false, heq, if_neg heq]
            cases scaleArgs with
            | error e => simp [hap, heq, applyScale] at hne ⊢
            | ok u =>
              cases patchResult with
              | none => simp [hap, heq, applyScale]
              | some e => simp [hap, heq, applyScale]
      · simp [hap] at hne
    · intro hap
      simp [hap]
    · intro ps hps heq
      subst hps
      simp [heq]

/-- Witness for C7: shouldApply is false (Active PA past the stable
window), so no patch and the decided scale 0 is returned. -/
theorem scale_patch_gated_witness :
    scale cfgsEx (120 * second) ⟨true, none⟩ paActiveEx sksServeEx
      (Except.ok ⟨"deploy", some 3⟩) (Except.ok ()) none 0 =
      ⟨0, none, [], [], [], []⟩ ∧
    (scale cfgsEx (120 * second) ⟨true, none⟩ paActiveEx sksServeEx
      (Except.ok ⟨"deploy", some 3⟩) (Except.ok ()) none 0).patches = [] := by
  have h := scale_patch_gated cfgsEx (120 * second) ⟨true, none⟩ paActiveEx
    sksServeEx (Except.ok ⟨"deploy", some 3⟩) (Except.ok ()) none 0
  have h2 := (h.2 (by decide)).2.1 (by decide)
  exact ⟨by decide, h2.1⟩

/-- Helper: for a nonnegative desired scale, every result of
`handleScaleToZero` with shouldApply = true has a nonnegative scale. -/
theorem handleScaleToZero_scale_nonneg (cfgs : Config) (now : Int)
    (proberDo : ProbeOutcome) (pa : PodAutoscaler) (sks : ServerlessService)
    (d : Int) (hd : 0 ≤ d)
    (hap : (handleScaleToZero cfgs now proberDo pa sks d).shouldApply = true) :
    0 ≤ (handleScaleToZero cfgs now proberDo pa sks d).scale := by
  unfold handleScaleToZero at hap ⊢
  split_ifs at hap ⊢ <;> simp_all <;>
    (split_ifs at hap ⊢ <;> simp_all)

/-- Claim C10: `applyBounds` is total on all of `Int` (hence all int32
inputs, including `x < 0` outside its stated precondition) and returns
`min` whenever `x < min`; consequently in `scale`, when `desiredScale <
0` and the PA is Activating (so the early return is skipped), the
clamped value handed to `handleScaleToZero` is `min ≥ 0`, and every
PATCH `scale` issues carries a nonnegative replica count. -/
theorem scale_negative_desired_safe (cfgs : Config) (now : Int)
    (proberDo : ProbeOutcome) (pa : PodAutoscaler) (sks : ServerlessService)
    (getPS : Except String PodScalable) (scaleArgs : Except String Unit)
    (patchResult : Option String) (desiredScale : Int)
    (hneg : desiredScale < 0) (hact : pa.status.isActivating = true)
    (hmin : 0 ≤ pa.minScale) :
    (∀ m mx y : Int, y < m → applyBounds m mx y = m) ∧
    applyBounds pa.minScale pa.maxScale desiredScale = pa.minScale ∧
    ∀ p ∈ (scale cfgs now proberDo pa sks getPS scaleArgs patchResult
        desiredScale).patches, 0 ≤ p.replicas := by
  have hlow : ∀ m mx y : Int, y < m → applyBounds m mx y = m := by
    intro m mx y hy
    unfold applyBounds
    simp [hy]
  have hclamp : applyBounds pa.minScale pa.maxScale desiredScale = pa.minScale :=
    hlow _ _ _ (by omega)
  refine ⟨hlow, hclamp, ?_⟩
  intro p hp
  unfold scale at hp
  rw [if_neg (by simp [hact])] at hp
  simp only [PodAutoscaler.scaleBounds, hclamp] at hp
  by_cases hap : (handleScaleToZero cfgs now proberDo pa sks pa.minScale).shouldApply
  · have hscale : 0 ≤ (handleScaleToZero cfgs now proberDo pa sks pa.minScale).scale :=
      handleScaleToZero_scale_nonneg cfgs now proberDo pa sks pa.minScale hmin hap
    cases getPS with
    | error e => simp [hap] at hp
    | ok ps =>
      by_cases heq : (handleScaleToZero cfgs now proberDo pa sks pa.minScale).scale =
          ps.replicas.getD 1
      · simp [hap, heq] at hp
      · simp only [hap, not_true_eq_false, if_false, heq, if_neg heq] at hp
        cases scaleArgs with
        | error e => simp [applyScale] at hp
        | ok u =>
          cases patchResult with
          | none =>
            simp [applyScale] at hp
            simp [hp, hscale]
          | some e =>
            simp [applyScale] at hp
            simp [hp, hscale]
  · simp [hap] at hp

/-- Witness for C10: PA Activating with `minScale = 0`, `desiredScale =
-1`: the clamp yields 0 and the invocation patches nothing at all. -/
theorem scale_negative_desired_safe_witness :
    applyBounds paActivatingEx.minScale paActivatingEx.maxScale (-1) =
      paActivatingEx.minScale ∧
    ∀ p ∈ (scale cfgsEx 0 ⟨false, none⟩ paActivatingEx sksServeEx
        (Except.ok ⟨"deploy", some 3⟩) (Except.ok ()) none (-1)).patches,
      0 ≤ p.replicas := by
  have h := scale_negative_desired_safe cfgsEx 0 ⟨false, none⟩ paActivatingEx
    sksServeEx (Except.ok ⟨"deploy", some 3⟩) (Except.ok ()) none (-1)
    (by decide) rfl (by decide)
  exact ⟨h.2.1, h.2.2⟩

end KpaScaler
